import Mathlib

/-!
Verification development for the learning-path generator
(`src/main.py`). The computational core of the program — the static
catalog, skill self-assessment, path builder, resource generator, and
the progress figures of the dashboard — is embedded shallowly below.

Randomness: the Python code draws from the global `random` module
(`random.randint`, `random.choice`). We model the entropy source as an
infinite stream of raw naturals together with a cursor; `randint lo hi`
consumes one raw value and maps it into `[lo, hi]` by modulus, which is
faithful to the guarantee `random.randint(lo, hi) ∈ [lo, hi]` and lets
the same stream be replayed. Every function that draws randomness takes
an `RNG` and returns the advanced `RNG`, in the exact order the Python
code consumes entropy.

Floats: `generate_personalized_path` computes
`int(total_hours / hours_per_week)` with `hours_per_week ∈ {7.5, 15, 25}`
and `total_hours` a small integer (at most 160 for every catalog entry).
For these magnitudes IEEE double division is correctly rounded and the
quotient is never within an ulp of an integer it is not equal to, so
truncation of the float equals the rational floor; the embedding uses
exact rationals and `Nat.floor` (the arguments are nonnegative, so
Python `int` truncation is the floor).

`created_date` (wall-clock date stamping) is not modelled: no claim
refers to it and it is real time.
-/

/-- Entropy source: an infinite stream of raw naturals plus a cursor. -/
structure RNG where
  stream : Nat → Nat
  pos : Nat

/-- Draw one raw value and advance. -/
def RNG.next (r : RNG) : Nat × RNG :=
  (r.stream r.pos, { r with pos := r.pos + 1 })

/-- Model of `random.randint(lo, hi)`: one draw mapped into `[lo, hi]`. -/
def randint (lo hi : Nat) (r : RNG) : Nat × RNG :=
  (lo + r.next.1 % (hi - lo + 1), r.next.2)

/-- Model of `random.choice(xs)` for a list of strings: one draw used as
an index (Python raises on an empty sequence; every call site passes a
literal nonempty list, so the default is never reached). -/
def choice (xs : List String) (r : RNG) : String × RNG :=
  (xs.getD (r.next.1 % xs.length) "", r.next.2)

/-- One entry of the static career-goal catalog (`self.skills_database`). -/
structure CatalogEntry where
  prerequisites : List String
  modules : List String
  difficulty : String
  duration_weeks : Nat
deriving Repr, DecidableEq

/-- The static catalog `self.skills_database` of `LearningPathGenerator`,
as an association list in source order. -/
def skills_database : List (String × CatalogEntry) :=
  [("Data Science",
    { prerequisites := ["Python Basics", "Statistics"],
      modules := ["Data Analysis", "Machine Learning", "Data Visualization", "Deep Learning"],
      difficulty := "Advanced",
      duration_weeks := 16 }),
   ("Web Development",
    { prerequisites := ["HTML/CSS", "JavaScript"],
      modules := ["Frontend Frameworks", "Backend Development", "Databases", "Deployment"],
      difficulty := "Intermediate",
      duration_weeks := 12 }),
   ("Machine Learning",
    { prerequisites := ["Python", "Mathematics", "Statistics"],
      modules := ["Supervised Learning", "Unsupervised Learning", "Neural Networks", "MLOps"],
      difficulty := "Advanced",
      duration_weeks := 20 }),
   ("Cloud Computing",
    { prerequisites := ["Basic Networking", "Linux Commands"],
      modules := ["AWS/Azure Basics", "Infrastructure as Code", "Containers", "DevOps"],
      difficulty := "Intermediate",
      duration_weeks := 14 }),
   ("Cybersecurity",
    { prerequisites := ["Networking", "Operating Systems"],
      modules := ["Security Fundamentals", "Ethical Hacking", "Incident Response", "Compliance"],
      difficulty := "Advanced",
      duration_weeks := 18 })]

/-- The static `self.learning_styles` table (style name → description). -/
def learning_styles : List (String × String) :=
  [("Visual", "Prefers diagrams, charts, and visual content"),
   ("Auditory", "Learns best through lectures and discussions"),
   ("Kinesthetic", "Hands-on learning and practical exercises"),
   ("Reading/Writing", "Text-based learning and note-taking")]

/-- The `base_resources` style table inside `get_resources_for_module`. -/
def base_resources : List (String × List String) :=
  [("Visual", ["Interactive Diagrams", "Video Tutorials", "Infographics"]),
   ("Auditory", ["Podcasts", "Video Lectures", "Discussion Forums"]),
   ("Kinesthetic", ["Hands-on Projects", "Labs", "Simulations"]),
   ("Reading/Writing", ["Documentation", "Books", "Written Exercises"])]

/-- A resource dict built by `get_resources_for_module`. The source
stores the sampled number inside the f-string
`f"\x7brandom.randint(2, 8)\x7d hours"`; here the sampled number is kept
as `estimated_time_hours` and the rendered string as `estimated_time`,
both produced from the same single draw. -/
structure ResourceRecord where
  type : String
  title : String
  estimated_time_hours : Nat
  estimated_time : String
  difficulty : String
deriving Repr, DecidableEq

/-- Body of the loop of `get_resources_for_module`: one ResourceRecord
per resource type, threading the RNG in source order (the time draw,
then the difficulty draw). -/
def build_resources (module : String) : List String → RNG → List ResourceRecord × RNG
  | [], r => ([], r)
  | t :: ts, r =>
    let hd := randint 2 8 r
    let dd := choice ["Beginner", "Intermediate", "Advanced"] hd.2
    let rest := build_resources module ts dd.2
    ({ type := t,
       title := module ++ " - " ++ t,
       estimated_time_hours := hd.1,
       estimated_time := toString hd.1 ++ " hours",
       difficulty := dd.1 } :: rest.1, rest.2)

/-- `LearningPathGenerator.get_resources_for_module`: looks up the style
in `base_resources`, defaulting to the single entry `Mixed Resources`,
and builds one record per resource type. -/
def get_resources_for_module (module learning_style : String) (r : RNG) :
    List ResourceRecord × RNG :=
  build_resources module ((base_resources.lookup learning_style).getD ["Mixed Resources"]) r

/-- A module dict built by `generate_personalized_path`. -/
structure ModuleRecord where
  name : String
  estimated_hours : Nat
  resources : List ResourceRecord
  prerequisites_met : Bool
  difficulty : String
deriving Repr, DecidableEq

/-- The learning-path dict returned by `generate_personalized_path`
(without `created_date`, which is wall-clock time and not modelled). -/
structure LearningPath where
  career_goal : String
  modules : List ModuleRecord
  estimated_completion : Nat
  total_hours : Nat
  learning_style_optimized : Bool
deriving Repr, DecidableEq

/-- The user profile dict assembled by the sidebar handler. -/
structure Profile where
  career_goal : String
  learning_style : String
  time_commitment : String
  skill_levels : List (String × Nat)
deriving Repr, DecidableEq

/-- The `weekly_hours` table of `generate_personalized_path` (the three
Python float values, as exact rationals). -/
def weekly_hours : List (String × ℚ) :=
  [("Low (5-10 hrs/week)", 15 / 2),
   ("Medium (10-20 hrs/week)", 15),
   ("High (20+ hrs/week)", 25)]

/-- The per-module loop of `generate_personalized_path`: for each
catalog module name, in order, sample `estimated_hours` in `[15, 40]`,
build the resource list, set `prerequisites_met` to true, and copy the
catalog difficulty. -/
def build_modules (learning_style difficulty : String) :
    List String → RNG → List ModuleRecord × RNG
  | [], r => ([], r)
  | m :: ms, r =>
    let hd := randint 15 40 r
    let res := get_resources_for_module m learning_style hd.2
    let rest := build_modules learning_style difficulty ms res.2
    ({ name := m,
       estimated_hours := hd.1,
       resources := res.1,
       prerequisites_met := true,
       difficulty := difficulty } :: rest.1, rest.2)

/-- `LearningPathGenerator.generate_personalized_path`. The Python
function returns a dict for a known career goal and the sentinel `None`
otherwise; it contains no `raise`. The result is wrapped in
`Except String` to make the absence of a raised error expressible: the
body only ever produces `Except.ok`. -/
def generate_personalized_path (profile : Profile) (r : RNG) :
    Except String (Option LearningPath) × RNG :=
  match skills_database.lookup profile.career_goal with
  | some base_path =>
      let adjusted :=
        build_modules profile.learning_style base_path.difficulty base_path.modules r
      let hours_per_week : ℚ := (weekly_hours.lookup profile.time_commitment).getD 15
      let total_hours : Nat := (adjusted.1.map (·.estimated_hours)).sum
      let estimated_weeks : Nat := ⌊(total_hours : ℚ) / hours_per_week⌋₊
      (Except.ok (some
        { career_goal := profile.career_goal,
          modules := adjusted.1,
          estimated_completion := estimated_weeks,
          total_hours := total_hours,
          learning_style_optimized := true }), adjusted.2)
  | none => (Except.ok none, r)

/-- `LearningPathGenerator.assess_current_skills`: maps each response
label to a sampled level, `Beginner → randint 1 3`,
`Intermediate → randint 4 7`, anything else (the catch-all `else`
branch) → `randint 7 10`, preserving the key order of the input dict. -/
def assess_current_skills : List (String × String) → RNG → List (String × Nat) × RNG
  | [], r => ([], r)
  | (skill, response) :: rest, r =>
    let lvl :=
      if response = "Beginner" then randint 1 3 r
      else if response = "Intermediate" then randint 4 7 r
      else randint 7 10 r
    let tail := assess_current_skills rest lvl.2
    ((skill, lvl.1) :: tail.1, tail.2)

/-- Python dict assignment `d[k] = v` on an association list: replace in
place when the key is present, append otherwise. -/
def dict_set : List (String × Nat) → String → Nat → List (String × Nat)
  | [], k, v => [(k, v)]
  | (k0, v0) :: rest, k, v =>
    if k0 = k then (k, v) :: rest else (k0, v0) :: dict_set rest k v

/-- Python `d.get(k, 0)` on an association list. -/
def dict_get0 (d : List (String × Nat)) (k : String) : Nat :=
  (d.lookup k).getD 0

/-- The start-button handler
(`st.session_state.progress[module['name']] = random.randint(10, 30)`). -/
def start_module (progress : List (String × Nat)) (name : String) (r : RNG) :
    List (String × Nat) × RNG :=
  (dict_set progress name (randint 10 30 r).1, (randint 10 30 r).2)

/-- The progress-dashboard computation of `overall_progress`:
`completed_modules` counts the entries of the session progress dict with
value at least 100 (it iterates over `st.session_state.progress.values()`,
not over the modules of the current path), and the figure is
`completed_modules / total_modules * 100` as an exact rational. -/
def overall_progress (path : LearningPath) (progress : List (String × Nat)) : ℚ :=
  let total_modules := path.modules.length
  let completed_modules := (progress.filter (fun p => 100 ≤ p.2)).length
  ((completed_modules : ℚ) / (total_modules : ℚ)) * 100

/-- The formula the specification states for overall progress: the count
of modules of the current path whose progress is at least 100, divided
by the number of modules, times 100. Written from the words of the
spec for comparison with `overall_progress` above. -/
def overall_progress_spec (path : LearningPath) (progress : List (String × Nat)) : ℚ :=
  let total_modules := path.modules.length
  let completed_modules :=
    (path.modules.filter (fun m => 100 ≤ dict_get0 progress m.name)).length
  ((completed_modules : ℚ) / (total_modules : ℚ)) * 100

/-- A concrete replayable entropy source (all raw draws are 0), used to
instantiate theorems at concrete inputs. -/
def rng_zero : RNG := ⟨fun _ => 0, 0⟩

/-- A concrete session learning path (the Data Science catalog modules)
used to instantiate statements about the progress dashboard. -/
def lp_data_science : LearningPath :=
  ⟨"Data Science",
   [⟨"Data Analysis", 20, [], true, "Advanced"⟩,
    ⟨"Machine Learning", 20, [], true, "Advanced"⟩,
    ⟨"Data Visualization", 20, [], true, "Advanced"⟩,
    ⟨"Deep Learning", 20, [], true, "Advanced"⟩],
   5, 80, true⟩

/-! ### Helper lemmas -/

theorem randint_ge (lo hi : Nat) (r : RNG) : lo ≤ (randint lo hi r).1 :=
  Nat.le_add_right lo _

theorem randint_le (lo hi : Nat) (r : RNG) (h : lo ≤ hi) : (randint lo hi r).1 ≤ hi := by
  have hm : r.next.1 % (hi - lo + 1) < hi - lo + 1 := Nat.mod_lt _ (by omega)
  simp only [randint]
  omega

theorem build_resources_types_titles (module : String) (ts : List String) (r : RNG) :
    (build_resources module ts r).1.map (fun res => (res.type, res.title))
      = ts.map (fun t => (t, module ++ " - " ++ t)) := by
  induction ts generalizing r with
  | nil => simp [build_resources]
  | cons t ts ih => simp [build_resources, ih]

theorem build_resources_time (module : String) (ts : List String) (r : RNG) :
    ∀ res ∈ (build_resources module ts r).1,
      2 ≤ res.estimated_time_hours ∧ res.estimated_time_hours ≤ 8 := by
  induction ts generalizing r with
  | nil => simp [build_resources]
  | cons t ts ih =>
    intro res hres
    simp only [build_resources, List.mem_cons] at hres
    rcases hres with h | h
    · subst h
      exact ⟨randint_ge 2 8 r, randint_le 2 8 r (by omega)⟩
    · exact ih _ res h

theorem build_modules_names (style diff : String) (ms : List String) (r : RNG) :
    (build_modules style diff ms r).1.map ModuleRecord.name = ms := by
  induction ms generalizing r with
  | nil => simp [build_modules]
  | cons m ms ih => simp [build_modules, ih]

theorem build_modules_fields (style diff : String) (ms : List String) (r : RNG) :
    ∀ m ∈ (build_modules style diff ms r).1,
      m.difficulty = diff ∧ m.prerequisites_met = true ∧
      15 ≤ m.estimated_hours ∧ m.estimated_hours ≤ 40 ∧
      ∀ res ∈ m.resources, 2 ≤ res.estimated_time_hours ∧ res.estimated_time_hours ≤ 8 := by
  induction ms generalizing r with
  | nil => simp [build_modules]
  | cons m ms ih =>
    intro md hmd
    simp only [build_modules, List.mem_cons] at hmd
    rcases hmd with h | h
    · subst h
      refine ⟨rfl, rfl, randint_ge 15 40 r, randint_le 15 40 r (by omega), ?_⟩
      exact build_resources_time _ _ _
    · exact ih _ md h

theorem dict_set_lookup (d : List (String × Nat)) (k : String) (v : Nat) :
    (dict_set d k v).lookup k = some v := by
  induction d with
  | nil => simp [dict_set, List.lookup]
  | cons p rest ih =>
    obtain ⟨k0, v0⟩ := p
    by_cases h : k0 = k
    · simp [dict_set, h, List.lookup]
    · have hb : (k == k0) = false := beq_eq_false_iff_ne.mpr fun he => h he.symm
      simp [dict_set, h, List.lookup, hb, ih]

/-! ### Claims -/

/-- C1: for every career goal that is a key of the catalog,
`generate_personalized_path` returns a path with exactly one
ModuleRecord per catalog module name, in the catalog order, each with
the difficulty of the catalog entry and `prerequisites_met = true`. -/
theorem C1_modules_match_catalog (prof : Profile) (r : RNG) (entry : CatalogEntry)
    (h : skills_database.lookup prof.career_goal = some entry) :
    ∃ (path : LearningPath) (r1 : RNG),
      generate_personalized_path prof r = (Except.ok (some path), r1) ∧
      path.modules.map ModuleRecord.name = entry.modules ∧
      ∀ m ∈ path.modules, m.difficulty = entry.difficulty ∧ m.prerequisites_met = true := by
  unfold generate_personalized_path
  rw [h]
  refine ⟨_, _, rfl, build_modules_names _ _ _ _, fun m hm => ?_⟩
  have hf := build_modules_fields prof.learning_style entry.difficulty entry.modules r m hm
  exact ⟨hf.1, hf.2.1⟩

/-- Witness for C1 at the profile of the Web Development scenario. -/
theorem C1_modules_match_catalog_witness :
    ∃ (path : LearningPath) (r1 : RNG),
      generate_personalized_path
        ⟨"Web Development", "Kinesthetic", "Medium (10-20 hrs/week)", []⟩ rng_zero
        = (Except.ok (some path), r1) ∧
      path.modules.map ModuleRecord.name
        = ["Frontend Frameworks", "Backend Development", "Databases", "Deployment"] ∧
      ∀ m ∈ path.modules, m.difficulty = "Intermediate" ∧ m.prerequisites_met = true :=
  C1_modules_match_catalog
    ⟨"Web Development", "Kinesthetic", "Medium (10-20 hrs/week)", []⟩ rng_zero
    ⟨["HTML/CSS", "JavaScript"],
     ["Frontend Frameworks", "Backend Development", "Databases", "Deployment"],
     "Intermediate", 12⟩ rfl

/-- C2: for every generated path, `total_hours` is the sum of the module
hours, and `estimated_completion` is the floor of `total_hours` divided
by 7.5 for the Low label, 15 for the Medium label, 25 for the High
label, and 15 for any other `time_commitment` value (the generation
succeeds — no error — in all these cases). -/
theorem C2_hours_and_completion (prof : Profile) (r : RNG) (path : LearningPath) (r1 : RNG)
    (h : generate_personalized_path prof r = (Except.ok (some path), r1)) :
    path.total_hours = (path.modules.map ModuleRecord.estimated_hours).sum ∧
    (prof.time_commitment = "Low (5-10 hrs/week)" →
      path.estimated_completion = ⌊(path.total_hours : ℚ) / (15 / 2)⌋₊) ∧
    (prof.time_commitment = "Medium (10-20 hrs/week)" →
      path.estimated_completion = ⌊(path.total_hours : ℚ) / 15⌋₊) ∧
    (prof.time_commitment = "High (20+ hrs/week)" →
      path.estimated_completion = ⌊(path.total_hours : ℚ) / 25⌋₊) ∧
    (prof.time_commitment ≠ "Low (5-10 hrs/week)" →
     prof.time_commitment ≠ "Medium (10-20 hrs/week)" →
     prof.time_commitment ≠ "High (20+ hrs/week)" →
      path.estimated_completion = ⌊(path.total_hours : ℚ) / 15⌋₊) := by
  cases hl : skills_database.lookup prof.career_goal with
  | none =>
    rw [generate_personalized_path, hl] at h
    simp at h
  | some entry =>
    rw [generate_personalized_path, hl] at h
    simp only [Prod.mk.injEq, Except.ok.injEq, Option.some.injEq] at h
    obtain ⟨hpath, hr⟩ := h
    subst hpath
    refine ⟨rfl, ?_, ?_, ?_, ?_⟩
    · intro ht; simp [weekly_hours, List.lookup, ht]
    · intro ht; simp [weekly_hours, List.lookup, ht]
    · intro ht; simp [weekly_hours, List.lookup, ht]
    · intro h1 h2 h3
      have e1 : (prof.time_commitment == "Low (5-10 hrs/week)") = false := by
        simp [h1]
      have e2 : (prof.time_commitment == "Medium (10-20 hrs/week)") = false := by
        simp [h2]
      have e3 : (prof.time_commitment == "High (20+ hrs/week)") = false := by
        simp [h3]
      simp [weekly_hours, List.lookup, e1, e2, e3]

/-- Witness for C2 at the Web Development profile with the Medium
time-commitment label. -/
theorem C2_hours_and_completion_witness :
    ∃ (path : LearningPath) (r1 : RNG),
      generate_personalized_path
        ⟨"Web Development", "Kinesthetic", "Medium (10-20 hrs/week)", []⟩ rng_zero
        = (Except.ok (some path), r1) ∧
      path.total_hours = (path.modules.map ModuleRecord.estimated_hours).sum ∧
      path.estimated_completion = ⌊(path.total_hours : ℚ) / 15⌋₊ := by
  refine ⟨_, _, rfl, ?_, ?_⟩
  · exact (C2_hours_and_completion
      ⟨"Web Development", "Kinesthetic", "Medium (10-20 hrs/week)", []⟩ rng_zero _ _ rfl).1
  · exact (C2_hours_and_completion
      ⟨"Web Development", "Kinesthetic", "Medium (10-20 hrs/week)", []⟩ rng_zero _ _ rfl).2.2.1 rfl

/-- C3 counterexample: at the unknown career goal `Quantum Computing`
the operation does not fail with an `UnknownCareerGoal` error — the
Python body contains no raise at all; it completes normally and returns
the sentinel `None` (here `Except.ok none`). -/
theorem C3_counterexample_returns_ok_none :
    generate_personalized_path
      ⟨"Quantum Computing", "Visual", "Medium (10-20 hrs/week)", []⟩ rng_zero
      = (Except.ok none, rng_zero) := rfl

/-- C3 (amended): for every career goal that is not a key of the
catalog, `generate_personalized_path` returns `None` without raising any
error, and no partial LearningPath is produced (the RNG is not even
advanced). -/
theorem C3_unknown_goal_returns_none (prof : Profile) (r : RNG)
    (h : skills_database.lookup prof.career_goal = none) :
    generate_personalized_path prof r = (Except.ok none, r) := by
  unfold generate_personalized_path
  rw [h]

/-- Witness for the amended C3 at the `Quantum Computing` profile of the
spec scenario. -/
theorem C3_unknown_goal_returns_none_witness :
    generate_personalized_path
      ⟨"Quantum Computing", "Kinesthetic", "Low (5-10 hrs/week)", [("Python", 5)]⟩ rng_zero
      = (Except.ok none, rng_zero) :=
  C3_unknown_goal_returns_none
    ⟨"Quantum Computing", "Kinesthetic", "Low (5-10 hrs/week)", [("Python", 5)]⟩ rng_zero rfl

/-- C4: `assess_current_skills` maps each response pairwise: the key is
kept, a `Beginner` label yields a level in `[1, 3]`, `Intermediate` a
level in `[4, 7]`, and `Advanced` a level in `[7, 10]`. -/
theorem C4_skill_levels_in_range (responses : List (String × String)) (r : RNG) :
    List.Forall₂
      (fun inp out => out.1 = inp.1 ∧
        (inp.2 = "Beginner" → 1 ≤ out.2 ∧ out.2 ≤ 3) ∧
        (inp.2 = "Intermediate" → 4 ≤ out.2 ∧ out.2 ≤ 7) ∧
        (inp.2 = "Advanced" → 7 ≤ out.2 ∧ out.2 ≤ 10))
      responses (assess_current_skills responses r).1 := by
  induction responses generalizing r with
  | nil => simp [assess_current_skills]
  | cons p rest ih =>
    obtain ⟨skill, resp⟩ := p
    refine List.Forall₂.cons ⟨rfl, ?_, ?_, ?_⟩ (ih _)
    · intro hb
      subst hb
      exact ⟨randint_ge 1 3 r, randint_le 1 3 r (by omega)⟩
    · intro hi
      subst hi
      exact ⟨randint_ge 4 7 r, randint_le 4 7 r (by omega)⟩
    · intro ha
      subst ha
      exact ⟨randint_ge 7 10 r, randint_le 7 10 r (by omega)⟩

/-- Witness for C4 at a three-skill response mapping covering all three
labels. -/
theorem C4_skill_levels_in_range_witness :
    List.Forall₂
      (fun inp out => out.1 = inp.1 ∧
        (inp.2 = "Beginner" → 1 ≤ out.2 ∧ out.2 ≤ 3) ∧
        (inp.2 = "Intermediate" → 4 ≤ out.2 ∧ out.2 ≤ 7) ∧
        (inp.2 = "Advanced" → 7 ≤ out.2 ∧ out.2 ≤ 10))
      [("Python", "Beginner"), ("Mathematics", "Intermediate"), ("Statistics", "Advanced")]
      ((assess_current_skills
        [("Python", "Beginner"), ("Mathematics", "Intermediate"), ("Statistics", "Advanced")]
        rng_zero).1) :=
  C4_skill_levels_in_range
    [("Python", "Beginner"), ("Mathematics", "Intermediate"), ("Statistics", "Advanced")]
    rng_zero

/-- C5: `get_resources_for_module` returns exactly one record per
resource-type entry of the style table, in table order, with title
`<module> - <type>`; an unrecognized style yields the single
`Mixed Resources` record. -/
theorem C5_resources_shape (module style : String) (r : RNG) :
    (get_resources_for_module module style r).1.map (fun res => (res.type, res.title))
      = ((base_resources.lookup style).getD ["Mixed Resources"]).map
          (fun t => (t, module ++ " - " ++ t)) ∧
    (base_resources.lookup style = none →
      (get_resources_for_module module style r).1.map (fun res => (res.type, res.title))
        = [("Mixed Resources", module ++ " - " ++ "Mixed Resources")]) := by
  constructor
  · exact build_resources_types_titles module _ r
  · intro hnone
    unfold get_resources_for_module
    rw [hnone]
    simpa using build_resources_types_titles module ["Mixed Resources"] r

/-- Witness for C5 at an unrecognized learning style. -/
theorem C5_resources_shape_witness :
    (get_resources_for_module "Data Analysis" "Osmosis" rng_zero).1.map
        (fun res => (res.type, res.title))
      = [("Mixed Resources", "Data Analysis - Mixed Resources")] :=
  (C5_resources_shape "Data Analysis" "Osmosis" rng_zero).2 rfl

/-- C6: in every generated LearningPath, every module has
`estimated_hours` in `[15, 40]` and every resource a numeric time
component in `[2, 8]`. -/
theorem C6_ranges (prof : Profile) (r : RNG) (path : LearningPath) (r1 : RNG)
    (h : generate_personalized_path prof r = (Except.ok (some path), r1)) :
    ∀ m ∈ path.modules,
      (15 ≤ m.estimated_hours ∧ m.estimated_hours ≤ 40) ∧
      ∀ res ∈ m.resources, 2 ≤ res.estimated_time_hours ∧ res.estimated_time_hours ≤ 8 := by
  cases hl : skills_database.lookup prof.career_goal with
  | none =>
    rw [generate_personalized_path, hl] at h
    simp at h
  | some entry =>
    rw [generate_personalized_path, hl] at h
    simp only [Prod.mk.injEq, Except.ok.injEq, Option.some.injEq] at h
    obtain ⟨hpath, hr⟩ := h
    subst hpath
    intro m hm
    have hf := build_modules_fields prof.learning_style entry.difficulty entry.modules r m hm
    exact ⟨⟨hf.2.2.1, hf.2.2.2.1⟩, hf.2.2.2.2⟩

/-- Witness for C6 at the Data Science profile. -/
theorem C6_ranges_witness :
    ∃ (path : LearningPath) (r1 : RNG),
      generate_personalized_path
        ⟨"Data Science", "Visual", "High (20+ hrs/week)", []⟩ rng_zero
        = (Except.ok (some path), r1) ∧
      ∀ m ∈ path.modules,
        (15 ≤ m.estimated_hours ∧ m.estimated_hours ≤ 40) ∧
        ∀ res ∈ m.resources, 2 ≤ res.estimated_time_hours ∧ res.estimated_time_hours ≤ 8 := by
  refine ⟨_, _, rfl, ?_⟩
  exact C6_ranges ⟨"Data Science", "Visual", "High (20+ hrs/week)", []⟩ rng_zero _ _ rfl

/-- C7: the generated path does not depend on the `skill_levels` field
of the profile — two profiles identical except in `skill_levels`, run
against the same entropy stream, give identical results. -/
theorem C7_skill_levels_irrelevant (r : RNG) (goal style tc : String)
    (sl1 sl2 : List (String × Nat)) :
    generate_personalized_path ⟨goal, style, tc, sl1⟩ r
      = generate_personalized_path ⟨goal, style, tc, sl2⟩ r := rfl

/-- C8: starting a module that is not already started sets its progress
to a value in `[10, 30]`. -/
theorem C8_start_sets_progress (progress : List (String × Nat)) (name : String) (r : RNG)
    (h : progress.lookup name = none) :
    10 ≤ dict_get0 (start_module progress name r).1 name ∧
    dict_get0 (start_module progress name r).1 name ≤ 30 := by
  unfold start_module dict_get0
  simp only [dict_set_lookup, Option.getD_some]
  exact ⟨randint_ge 10 30 r, randint_le 10 30 r (by omega)⟩

/-- Witness for C8: starting `Data Analysis` in an empty progress
mapping. -/
theorem C8_start_sets_progress_witness :
    10 ≤ dict_get0 (start_module [] "Data Analysis" rng_zero).1 "Data Analysis" ∧
    dict_get0 (start_module [] "Data Analysis" rng_zero).1 "Data Analysis" ≤ 30 :=
  C8_start_sets_progress [] "Data Analysis" rng_zero rfl

/-- C10: `assess_current_skills` sends every label other than
`Beginner` and `Intermediate` (not only `Advanced`) through the
catch-all branch into `[7, 10]`, and the output has exactly the keys of
the input, in order. -/
theorem C10_catch_all_and_keys (responses : List (String × String)) (r : RNG) :
    (assess_current_skills responses r).1.map Prod.fst = responses.map Prod.fst ∧
    List.Forall₂
      (fun inp out => inp.2 ≠ "Beginner" → inp.2 ≠ "Intermediate" →
        7 ≤ out.2 ∧ out.2 ≤ 10)
      responses (assess_current_skills responses r).1 := by
  induction responses generalizing r with
  | nil => exact ⟨rfl, List.Forall₂.nil⟩
  | cons p rest ih =>
    obtain ⟨skill, resp⟩ := p
    refine ⟨?_, List.Forall₂.cons ?_ (ih _).2⟩
    · simpa [assess_current_skills] using (ih _).1
    · intro hb hi
      rw [show (if resp = "Beginner" then randint 1 3 r
          else if resp = "Intermediate" then randint 4 7 r
          else randint 7 10 r) = randint 7 10 r by rw [if_neg hb, if_neg hi]]
      exact ⟨randint_ge 7 10 r, randint_le 7 10 r (by omega)⟩

/-- Witness for C10 at a response mapping containing an off-enum label. -/
theorem C10_catch_all_and_keys_witness :
    (assess_current_skills [("Python", "Expert"), ("Statistics", "Beginner")] rng_zero).1.map
        Prod.fst = ["Python", "Statistics"] ∧
    List.Forall₂
      (fun inp out => inp.2 ≠ "Beginner" → inp.2 ≠ "Intermediate" →
        7 ≤ out.2 ∧ out.2 ≤ 10)
      [("Python", "Expert"), ("Statistics", "Beginner")]
      ((assess_current_skills [("Python", "Expert"), ("Statistics", "Beginner")] rng_zero).1) :=
  C10_catch_all_and_keys [("Python", "Expert"), ("Statistics", "Beginner")] rng_zero

theorem lookup_eq_none_of_not_mem (d : List (String × Nat)) (k : String)
    (h : k ∉ d.map Prod.fst) : d.lookup k = none := by
  induction d with
  | nil => rfl
  | cons p rest ih =>
    obtain ⟨k0, v0⟩ := p
    simp only [List.map_cons, List.mem_cons, not_or] at h
    have hb : (k == k0) = false := beq_eq_false_iff_ne.mpr h.1
    simp [List.lookup, hb, ih h.2]

theorem completed_count (d : List (String × Nat)) (h : (d.map Prod.fst).Nodup) :
    (d.filter (fun p => 100 ≤ p.2)).length
      = ((d.map Prod.fst).filter (fun k => 100 ≤ dict_get0 d k)).length := by
  induction d with
  | nil => rfl
  | cons p rest ih =>
    obtain ⟨k, v⟩ := p
    simp only [List.map_cons, List.nodup_cons] at h
    obtain ⟨hk, hrest⟩ := h
    have hself : dict_get0 ((k, v) :: rest) k = v := by
      simp [dict_get0, List.lookup]
    have hne : ∀ k', k' ≠ k → dict_get0 ((k, v) :: rest) k' = dict_get0 rest k' := by
      intro k' hne
      have hb : (k' == k) = false := beq_eq_false_iff_ne.mpr hne
      simp [dict_get0, List.lookup, hb]
    have hcongr : (rest.map Prod.fst).filter (fun k' => 100 ≤ dict_get0 ((k, v) :: rest) k')
        = (rest.map Prod.fst).filter (fun k' => 100 ≤ dict_get0 rest k') := by
      apply List.filter_congr
      intro k' hk'
      have hkk : k' ≠ k := fun he => hk (he ▸ hk')
      rw [hne k' hkk]
    by_cases hv : 100 ≤ v
    · simp [List.filter_cons, hself, hcongr, hv, ih hrest]
    · simp [List.filter_cons, hself, hcongr, hv, ih hrest]

theorem filter_length_subset (names keys : List String) (q : String → Bool)
    (hn : names.Nodup) (hk : keys.Nodup) (hsub : ∀ k ∈ keys, k ∈ names)
    (hq : ∀ n, q n = true → n ∈ keys) :
    (names.filter q).length = (keys.filter q).length := by
  have hperm : List.Perm (names.filter q) (keys.filter q) := by
    apply List.perm_of_nodup_nodup_toFinset_eq (hn.filter q) (hk.filter q)
    ext x
    simp only [List.mem_toFinset, List.mem_filter]
    exact ⟨fun hx => ⟨hq x hx.2, hx.2⟩, fun hx => ⟨hsub x hx.1, hx.2⟩⟩
  exact hperm.length_eq

/-- C9 counterexample: a session whose progress mapping holds a
fully-progressed entry (`Deployment`, e.g. kept from a previously
generated path) that is not a module of the current path. The code
computes 25 % because it counts entries of the progress dict with value
at least 100, while the claimed formula — counting modules of the
current path — gives 0 %. -/
theorem C9_counterexample_stale_progress :
    overall_progress lp_data_science [("Deployment", 100)] = 25 ∧
    overall_progress_spec lp_data_science [("Deployment", 100)] = 0 := by
  constructor
  · norm_num [overall_progress, lp_data_science]
  · have h1 : dict_get0 [("Deployment", 100)] "Data Analysis" = 0 := rfl
    have h2 : dict_get0 [("Deployment", 100)] "Machine Learning" = 0 := rfl
    have h3 : dict_get0 [("Deployment", 100)] "Data Visualization" = 0 := rfl
    have h4 : dict_get0 [("Deployment", 100)] "Deep Learning" = 0 := rfl
    norm_num [overall_progress_spec, lp_data_science, h1, h2, h3, h4]

/-- C9 (amended): when every key of the progress mapping names a module
of the current path (keys and module names duplicate-free), the overall
progress figure equals (count of current-path modules with progress at
least 100) / (total modules) × 100; in general the code counts every
entry of the progress mapping with value at least 100, whether or not
its module belongs to the current path. -/
theorem C9_progress_formula_amended (path : LearningPath) (progress : List (String × Nat))
    (hkeys : ∀ k ∈ progress.map Prod.fst, k ∈ path.modules.map ModuleRecord.name)
    (hpn : (progress.map Prod.fst).Nodup)
    (hmn : (path.modules.map ModuleRecord.name).Nodup) :
    overall_progress path progress = overall_progress_spec path progress := by
  have hcount : (progress.filter (fun p => 100 ≤ p.2)).length
      = (path.modules.filter (fun m => 100 ≤ dict_get0 progress m.name)).length := by
    rw [completed_count progress hpn]
    have hstep : ((progress.map Prod.fst).filter (fun k => 100 ≤ dict_get0 progress k)).length
        = ((path.modules.map ModuleRecord.name).filter
            (fun k => 100 ≤ dict_get0 progress k)).length := by
      refine (filter_length_subset _ _ _ hmn hpn hkeys ?_).symm
      intro n hqn
      by_contra hnk
      have h0 := lookup_eq_none_of_not_mem progress n hnk
      simp only [dict_get0, h0, Option.getD_none] at hqn
      simp at hqn
    rw [hstep]
    rw [← List.countP_eq_length_filter, ← List.countP_eq_length_filter, List.countP_map]
    rfl
  simp only [overall_progress, overall_progress_spec]
  rw [hcount]

/-- Witness for the amended C9: a session whose progress keys are all
modules of the current path. -/
theorem C9_progress_formula_amended_witness :
    overall_progress lp_data_science [("Data Analysis", 100), ("Machine Learning", 20)]
      = overall_progress_spec lp_data_science [("Data Analysis", 100), ("Machine Learning", 20)] :=
  C9_progress_formula_amended lp_data_science
    [("Data Analysis", 100), ("Machine Learning", 20)]
    (by decide) (by decide) (by decide)
